import Mathlib

set_option maxRecDepth 8000

/-!
Shallow embedding of the contact submission and classification pipeline of the
mern-portfolio-backend repository: the validation middleware and Mongoose
Contact schema (src/middleware/validation.js) and the contact controller
(src/controllers/contactController.js).  JS strings are modelled as Lean
strings over their character lists; all inputs of interest are ASCII, so the
ASCII versions of toLowerCase / trim / the regex character classes coincide
with the JS semantics.
-/

namespace Portfolio

/-! JS string primitives -/

/-- Whether the pattern list is an initial segment of the other list. -/
def charsStart : List Char → List Char → Bool
  | [], _ => true
  | _ :: _, [] => false
  | p :: ps, c :: cs => p == c && charsStart ps cs

/-- Whether the pattern occurs as a contiguous run anywhere in the list. -/
def charsHasSub (pat : List Char) : List Char → Bool
  | [] => charsStart pat []
  | c :: cs => charsStart pat (c :: cs) || charsHasSub pat cs

/-- JS `hay.includes(pat)`. -/
def strIncludes (hay pat : String) : Bool :=
  charsHasSub pat.toList hay.toList

/-- JS `s.toLowerCase()` (ASCII). -/
def jsToLower (s : String) : String :=
  String.mk (s.toList.map Char.toLower)

/-- The JS regex class backslash-s restricted to ASCII. -/
def jsSpaceChar (c : Char) : Bool :=
  c == ' ' || c == '\t' || c == '\n' || c == '\r' || c == '\x0b' || c == '\x0c'

/-- JS `s.trim()` (ASCII whitespace). -/
def jsTrim (s : String) : String :=
  String.mk (((s.toList.dropWhile jsSpaceChar).reverse.dropWhile jsSpaceChar).reverse)

/-- JS string truthiness: the empty string is falsy. -/
def jsTruthy (s : String) : Bool := !(s == "")

/-- validator.isLength(s, \x7bmin, max\x7d). -/
def isLength (s : String) (lo hi : Nat) : Bool :=
  lo ≤ s.length && s.length ≤ hi

/-! The classifier (contactSchema.methods.extractTags / determinePriority) -/

/-- The keyword dictionary of extractTags, in source order. -/
def commonTags : List (String × List String) :=
  [("website", ["website", "web", "site", "portfolio"]),
   ("mobile", ["mobile", "app", "android", "ios", "react native"]),
   ("frontend", ["frontend", "react", "vue", "angular", "javascript", "css", "html"]),
   ("backend", ["backend", "node", "express", "python", "django", "php", "laravel"]),
   ("database", ["database", "mongodb", "mysql", "postgresql", "firebase"]),
   ("ecommerce", ["ecommerce", "shop", "store", "payment", "cart"]),
   ("api", ["api", "rest", "graphql", "endpoint"]),
   ("urgent", ["urgent", "asap", "immediately", "emergency"]),
   ("collaboration", ["collaborate", "partner", "team up", "work together"]),
   ("freelance", ["freelance", "contract", "project", "hire"]),
   ("job", ["job", "career", "position", "employment", "hire me"])]

/-- The lower-cased space-joined content both classifier methods scan. -/
def classifierContent (subject message : String) : String :=
  jsToLower (subject ++ " " ++ message)

/-- contactSchema.methods.extractTags: a tag is emitted when any of its
keywords occurs in the content; the Set preserves first-insertion order,
which is dictionary order. -/
def extractTags (subject message : String) : List String :=
  (commonTags.filter
    (fun tk => tk.2.any (fun kw => strIncludes (classifierContent subject message) kw))).map
    (fun tk => tk.1)

def urgentKeywords : List String :=
  ["urgent", "asap", "emergency", "immediately", "critical"]

def highPriorityKeywords : List String :=
  ["important", "deadline", "hiring", "job offer", "collaboration"]

/-- contactSchema.methods.determinePriority. -/
def determinePriority (subject message : String) : String :=
  let content := classifierContent subject message
  if urgentKeywords.any (fun kw => strIncludes content kw) then "urgent"
  else if highPriorityKeywords.any (fun kw => strIncludes content kw) then "high"
  else "normal"

/-! The Contact document (ipAddress / userAgent / metadata are provenance
fields never read by the claims and are omitted) -/

structure ContactDoc where
  name : String
  email : String
  subject : String
  message : String
  status : String := "new"
  priority : String := "normal"
  tags : List String := []
  source : String := "website"
  repliedAt : Option Nat := none
  repliedBy : Option String := none
deriving DecidableEq

/-! Schema validators -/

/-- Character class of the name regex: letters, whitespace, hyphen,
apostrophe and dot. -/
def nameChar (c : Char) : Bool :=
  c.isAlpha || jsSpaceChar c || c == '-' || c == '\x27' || c == '.'

/-- The anchored name regex test. -/
def nameRegexTest (s : String) : Bool :=
  !(s.toList.isEmpty) && s.toList.all nameChar

/-- A dot strictly inside a character list: at some position other than the
last one. -/
def dotNotLast : List Char → Bool
  | [] => false
  | [_] => false
  | c :: cs => c == '.' || dotNotLast cs

/-- The email regex of the schema and the controller: a run of characters
that are not whitespace and not the at-sign, one at-sign, and a domain part
holding a dot with at least one character on each side. -/
def emailRegexOk (s : String) : Bool :=
  let l := s.toList
  !(l.any (fun c => jsSpaceChar c)) &&
  l.count '@' == 1 &&
  (let a := l.takeWhile (fun c => !(c == '@'))
   let b := (l.dropWhile (fun c => !(c == '@'))).tail
   !(a.isEmpty) &&
   (match b with
    | [] => false
    | _ :: rest => dotNotLast rest))

/-- The JS regex class backslash-w (ASCII). -/
def wordChar (c : Char) : Bool := c.isAlphanum || c == '_'

/-- Spaces already begun: more spaces, then an equals sign. -/
def afterOnSpaces : List Char → Bool
  | [] => false
  | c :: cs => if jsSpaceChar c then afterOnSpaces cs else c == '='

/-- After an inline-handler prefix and at least one word character: more word
characters, then optional spaces, then an equals sign. -/
def afterOnWord : List Char → Bool
  | [] => false
  | c :: cs =>
      if wordChar c then afterOnWord cs
      else if jsSpaceChar c then afterOnSpaces cs
      else c == '='

/-- The pattern on-word-spaces-equals anchored at the head of the list. -/
def onHandlerAt : List Char → Bool
  | 'o' :: 'n' :: c :: cs => wordChar c && afterOnWord cs
  | _ => false

/-- A scan for the inline-event-handler pattern anywhere in the list. -/
def hasOnHandler : List Char → Bool
  | [] => false
  | c :: cs => onHandlerAt (c :: cs) || hasOnHandler cs

def scriptOpenChars : List Char := "<script".toList

def scriptCloseChars : List Char := "</script>".toList

/-- An opening script token at the head (with a word boundary after it)
followed somewhere later by a closing token; this is exactly when the
balanced script-tag regex of the schema matches at this position. -/
def scriptOpenAt (l : List Char) : Bool :=
  charsStart scriptOpenChars l &&
  (match l.drop 7 with
   | [] => true
   | c :: _ => !wordChar c) &&
  charsHasSub scriptCloseChars (l.drop 7)

/-- A scan for a matched script tag anywhere in the list. -/
def hasScriptTag : List Char → Bool
  | [] => false
  | c :: cs => scriptOpenAt (c :: cs) || hasScriptTag cs

/-- The forbiddenPatterns test shared by the subject and message validators
(the three regexes carry the i flag, so the scan runs on the lower-cased
text). -/
def forbiddenContentHit (s : String) : Bool :=
  let low := jsToLower s
  hasScriptTag low.toList || strIncludes low "javascript:" || hasOnHandler low.toList

def statusValues : List String := ["new", "read", "replied", "archived"]
def priorityValues : List String := ["low", "normal", "high", "urgent"]
def sourceValues : List String := ["website", "mobile", "api", "admin"]

def statusValid (s : String) : Bool := statusValues.contains s
def priorityValid (s : String) : Bool := priorityValues.contains s
def sourceValid (s : String) : Bool := sourceValues.contains s

structure FieldError where
  field : String
  message : String
deriving DecidableEq

/-- First failing check of one schema path (Mongoose records one error per
path: the first failing validator, with required tested first). -/
def pathError (field : String) : List (Bool × String) → Option FieldError
  | [] => none
  | (ok, msg) :: rest => if ok then pathError field rest else some ⟨field, msg⟩

/-- Document validation of the Contact schema, in path order. -/
def validateContactSchema (c : ContactDoc) : List FieldError :=
  [pathError "name"
     [(jsTruthy c.name, "Name is required"),
      (2 ≤ c.name.length, "Name must be at least 2 characters long"),
      (c.name.length ≤ 50, "Name cannot exceed 50 characters"),
      (nameRegexTest c.name, "Name can only contain letters, spaces, hyphens, and apostrophes")],
   pathError "email"
     [(jsTruthy c.email, "Email is required"),
      (emailRegexOk c.email, "Please provide a valid email address")],
   pathError "subject"
     [(jsTruthy c.subject, "Subject is required"),
      (5 ≤ c.subject.length, "Subject must be at least 5 characters long"),
      (c.subject.length ≤ 100, "Subject cannot exceed 100 characters"),
      (!(forbiddenContentHit c.subject), "Subject contains invalid content")],
   pathError "message"
     [(jsTruthy c.message, "Message is required"),
      (10 ≤ c.message.length, "Message must be at least 10 characters long"),
      (c.message.length ≤ 1000, "Message cannot exceed 1000 characters"),
      (!(forbiddenContentHit c.message), "Message contains invalid content")],
   pathError "status"
     [(statusValid c.status, "Status must be either new, read, replied, or archived")],
   pathError "priority"
     [(priorityValid c.priority, "Priority must be either low, normal, high, or urgent")],
   pathError "source"
     [(sourceValid c.source, "Source must be either website, mobile, api, or admin")]].reduceOption

/-! Pre-save middleware -/

/-- First pre-save hook: trim the truthy text fields, lower-case the email,
then recompute tags and priority from the (trimmed) subject and message. -/
def preSaveClassify (c : ContactDoc) : ContactDoc :=
  let n := if jsTruthy c.name then jsTrim c.name else c.name
  let e := if jsTruthy c.email then jsToLower (jsTrim c.email) else c.email
  let s := if jsTruthy c.subject then jsTrim c.subject else c.subject
  let m := if jsTruthy c.message then jsTrim c.message else c.message
  { c with name := n, email := e, subject := s, message := m,
           tags := extractTags s m, priority := determinePriority s m }

/-- Second pre-save hook: set response.repliedAt the first time a modified
status equals replied and repliedAt is still unset. -/
def preSaveReplied (statusModified : Bool) (now : Nat) (c : ContactDoc) : ContactDoc :=
  if statusModified && c.status == "replied" && c.repliedAt == none then
    { c with repliedAt := some now }
  else c

/-- Both pre-save hooks, in registration order. -/
def preSaveHooks (statusModified : Bool) (now : Nat) (c : ContactDoc) : ContactDoc :=
  preSaveReplied statusModified now (preSaveClassify c)

/-- Schema setters applied by the document constructor: trim on the text
paths, lowercase on email, trim and lowercase on tags. -/
def newContact (d : ContactDoc) : ContactDoc :=
  { d with name := jsTrim d.name, email := jsToLower (jsTrim d.email),
           subject := jsTrim d.subject, message := jsTrim d.message,
           tags := d.tags.map (fun t => jsToLower (jsTrim t)) }

/-- Document save: validation (which Mongoose runs before the user pre-save
hooks), then the pre-save hooks, then the write.  The saved document is the
hook output. -/
def saveContact (statusModified : Bool) (now : Nat) (c : ContactDoc) :
    Except (List FieldError) ContactDoc :=
  match validateContactSchema c with
  | [] => .ok (preSaveHooks statusModified now c)
  | errs => .error errs

/-! The validateContact middleware (validator.escape and the sequential
checks).  validator.isEmail is a third-party library function and is kept as
an explicit parameter. -/

/-- validator.escape, character by character.  The source applies eight
sequential global replacements (ampersand first); since no replacement text
contains a character replaced by a later rule, this equals the simultaneous
per-character map. -/
def escapeChar (c : Char) : String :=
  if c == '&' then "&amp;"
  else if c == '\x22' then "&quot;"
  else if c == '\x27' then "&#x27;"
  else if c == '<' then "&lt;"
  else if c == '>' then "&gt;"
  else if c == '/' then "&#x2F;"
  else if c == '\\' then "&#x5C;"
  else if c == '\x60' then "&#96;"
  else String.mk [c]

def validatorEscape (s : String) : String :=
  String.join (s.toList.map escapeChar)

/-- The request body of the submission route. -/
structure ContactBody where
  name : String
  email : String
  subject : String
  message : String
  source : Option String := none
deriving DecidableEq

/-- validateContact: sequential checks, each returning a single-message 400
response; on success the name, subject and message are HTML-escaped in
place. -/
def validateContactMw (isEmailV : String → Bool) (b : ContactBody) :
    Except String ContactBody :=
  if !(jsTruthy b.name) || !(jsTruthy b.email) || !(jsTruthy b.subject) || !(jsTruthy b.message) then
    .error "All fields are required"
  else if !(isEmailV b.email) then
    .error "Please provide a valid email address"
  else if !(isLength b.name 2 50) then
    .error "Name must be between 2 and 50 characters"
  else if !(isLength b.subject 5 100) then
    .error "Subject must be between 5 and 100 characters"
  else if !(isLength b.message 10 1000) then
    .error "Message must be between 10 and 1000 characters"
  else
    .ok { b with name := validatorEscape b.name,
                 subject := validatorEscape b.subject,
                 message := validatorEscape b.message }

/-- The fields of the §3 data-model invariants that an input violates, in
field order, as checked by the middleware layer. -/
def violatedFields (isEmailV : String → Bool) (b : ContactBody) : List String :=
  (if jsTruthy b.name && isLength b.name 2 50 then [] else ["name"]) ++
  (if jsTruthy b.email && isEmailV b.email then [] else ["email"]) ++
  (if jsTruthy b.subject && isLength b.subject 5 100 then [] else ["subject"]) ++
  (if jsTruthy b.message && isLength b.message 10 1000 then [] else ["message"])

/-- The five middleware checks in their fixed source order, each as its pass
flag paired with its rejection message. -/
def middlewareChecks (isEmailV : String → Bool) (b : ContactBody) : List (Bool × String) :=
  [(jsTruthy b.name && jsTruthy b.email && jsTruthy b.subject && jsTruthy b.message,
      "All fields are required"),
   (isEmailV b.email, "Please provide a valid email address"),
   (isLength b.name 2 50, "Name must be between 2 and 50 characters"),
   (isLength b.subject 5 100, "Subject must be between 5 and 100 characters"),
   (isLength b.message 10 1000, "Message must be between 10 and 1000 characters")]

/-- The messages of the failing middleware checks, in check order. -/
def failedCheckMessages (isEmailV : String → Bool) (b : ContactBody) : List String :=
  ((middlewareChecks isEmailV b).filter (fun ck => !ck.1)).map (fun ck => ck.2)

/-! The contact controller -/

/-- A 400 rejection of the submission operation: either a client-level
validation response carrying a list of plain messages, or a Mongoose
ValidationError mapped to its enumerated field errors. -/
inductive SubmitFailure where
  | validation (errors : List String)
  | schemaValidation (errors : List FieldError)
deriving DecidableEq

/-- submitContact up to persistence: the controller's own sequential checks,
then the contactData construction (including the length-derived priority the
pre-save hook later overwrites), then the document save. -/
def submitContactOp (b : ContactBody) (now : Nat) : Except SubmitFailure ContactDoc :=
  if !(jsTruthy b.name) || !(jsTruthy b.email) || !(jsTruthy b.subject) || !(jsTruthy b.message) then
    .error (.validation ["All fields are required: name, email, subject, message"])
  else if !(emailRegexOk b.email) then
    .error (.validation ["Please provide a valid email address"])
  else if b.message.length < 10 then
    .error (.validation ["Message must be at least 10 characters long"])
  else if b.name.length < 2 then
    .error (.validation ["Name must be at least 2 characters long"])
  else if b.subject.length < 5 then
    .error (.validation ["Subject must be at least 5 characters long"])
  else
    let contactData : ContactDoc :=
      { name := jsTrim b.name,
        email := jsToLower (jsTrim b.email),
        subject := jsTrim b.subject,
        message := jsTrim b.message,
        source := b.source.getD "website",
        status := "new",
        priority := if 200 < b.message.length then "high" else "normal" }
    match saveContact true now (newContact contactData) with
    | .ok c => .ok c
    | .error errs => .error (.schemaValidation errs)

/-- The submission route: the validateContact middleware runs before the
controller (routes file: contactLimiter, validateContact, submitContact). -/
def endToEndSubmit (isEmailV : String → Bool) (b : ContactBody) (now : Nat) :
    Except SubmitFailure ContactDoc :=
  match validateContactMw isEmailV b with
  | .error m => .error (.validation [m])
  | .ok b2 => submitContactOp b2 now

/-! Notification dispatch after a successful save -/

/-- The mail-service state and the outcomes the Brevo API would return for
the two sends of one submission. -/
structure NotifyEnv where
  configured : Bool
  userSendOk : Bool
  adminSendOk : Bool

/-- emailService.sendEmail: throws when unconfigured, otherwise the outcome
of the API call. -/
def sendEmailModel (env : NotifyEnv) (ok : Bool) : Except String Unit :=
  if !env.configured then .error "Brevo API service not configured"
  else if ok then .ok () else .error "Email sending failed"

/-- The Promise.all body of sendEmailNotifications: fails when either send
fails. -/
def notificationsInner (env : NotifyEnv) : Except String Unit := do
  let _ ← sendEmailModel env env.userSendOk
  let _ ← sendEmailModel env env.adminSendOk
  pure ()

/-- sendEmailNotifications: the surrounding try/catch logs and swallows every
failure. -/
def sendEmailNotificationsModel (env : NotifyEnv) : Except String Unit :=
  match notificationsInner env with
  | .ok _ => .ok ()
  | .error _ => .ok ()

/-- The 201 payload submitContact returns after a successful save. -/
structure SubmitResponseData where
  success : Bool
  statusCode : Nat
  message : String
  id : String
  name : String
  email : String
deriving DecidableEq

def successResponse (c : ContactDoc) (cid : String) : SubmitResponseData :=
  { success := true, statusCode := 201,
    message := "Your message has been sent successfully. I will respond within 24 hours.",
    id := cid, name := c.name, email := c.email }

structure DispatchResult where
  response : SubmitResponseData
  notificationsAttempted : Nat
  notificationError : Option String
deriving DecidableEq

/-- The tail of submitContact after a successful save: dispatch the two
notifications fire-and-forget when the service is configured (the rejection
handler only logs), skip them entirely otherwise, and return the success
response either way. -/
def afterSaveFlow (env : NotifyEnv) (c : ContactDoc) (cid : String) : DispatchResult :=
  let notif : Option (Except String Unit) :=
    if env.configured then some (sendEmailNotificationsModel env) else none
  { response := successResponse c cid
    notificationsAttempted := if env.configured then 2 else 0
    notificationError :=
      match notif with
      | some (.error e) => some e
      | _ => none }

/-! The listing operation getContacts -/

structure ListingQuery where
  status : Option String := none
  priority : Option String := none
  source : Option String := none
  search : Option String := none

/-- A case-insensitive unanchored regex match with a plain-text pattern:
substring of the lower-cased haystack. -/
def regexI (hay pat : String) : Bool :=
  strIncludes (jsToLower hay) (jsToLower pat)

/-- The find filter getContacts builds: status and priority equality clauses
when the parameters are truthy, and an or-clause over name, email, subject
and message for a truthy search term.  The source parameter of the request
is never read, and tags are not searched. -/
def matchesContactFilter (q : ListingQuery) (c : ContactDoc) : Bool :=
  (match q.status with
   | none => true
   | some s => !(jsTruthy s) || c.status == s) &&
  (match q.priority with
   | none => true
   | some p => !(jsTruthy p) || c.priority == p) &&
  (match q.search with
   | none => true
   | some t => !(jsTruthy t) ||
       (regexI c.name t || regexI c.email t || regexI c.subject t || regexI c.message t))

/-- The matching result set of the listing request (before sort and
pagination). -/
def getContactsItems (q : ListingQuery) (store : List ContactDoc) : List ContactDoc :=
  store.filter (matchesContactFilter q)

/-- Modelled from the spec's listing contract (claim C6): status, priority
and source exact-match filters, and a free-text search over name, email,
subject, message, or any tag, case-insensitively. -/
def matchesListingSpec (q : ListingQuery) (c : ContactDoc) : Bool :=
  (match q.status with
   | none => true
   | some s => c.status == s) &&
  (match q.priority with
   | none => true
   | some p => c.priority == p) &&
  (match q.source with
   | none => true
   | some s => c.source == s) &&
  (match q.search with
   | none => true
   | some t =>
       regexI c.name t || regexI c.email t || regexI c.subject t ||
       regexI c.message t || c.tags.any (fun tag => regexI tag t))

/-- The pagination block of the getContacts response.  On naturals with a
positive page size, Math.ceil(total / limit) is (total + limit - 1) / limit. -/
structure PaginationInfo where
  current : Nat
  pages : Nat
  total : Nat
  hasNext : Bool
  hasPrev : Bool
deriving DecidableEq

def getContactsPagination (total page limit : Nat) : PaginationInfo :=
  let totalPages := (total + limit - 1) / limit
  { current := page, pages := totalPages, total := total,
    hasNext := decide (page < totalPages), hasPrev := decide (1 < page) }

/-! The statistics operation getContactStats -/

def countDocuments (store : List ContactDoc) (pred : ContactDoc → Bool) : Nat :=
  (store.filter pred).length

structure StatsOverview where
  total : Nat
  newCount : Nat
  responded : Nat
  highPriority : Nat
  responseRate : ℚ

/-- The overview block of getContactStats.  The responded count queries the
literal status string responded; the response rate is responded over total
(times 100) when the store is nonempty. -/
def getContactStatsOverview (store : List ContactDoc) : StatsOverview :=
  let totalContacts := store.length
  let respondedContacts := countDocuments store (fun c => c.status == "responded")
  { total := totalContacts,
    newCount := countDocuments store (fun c => c.status == "new"),
    responded := respondedContacts,
    highPriority := countDocuments store (fun c => c.priority == "high"),
    responseRate :=
      if 0 < totalContacts then ((respondedContacts : ℚ) / (totalContacts : ℚ)) * 100 else 0 }

/-! The status-update operation updateContactStatus -/

/-- updateContactStatus: findByIdAndUpdate with runValidators.  Update
middleware does not run the pre-save hooks; adminNotes and the top-level
respondedAt are not schema paths, so under strict mode only status is
written (and the respondedAt ternary compares against the string responded,
which the enum never admits). -/
def updateContactStatusOp (newStatus : String) (c : ContactDoc) :
    Except (List FieldError) ContactDoc :=
  if statusValid newStatus then .ok { c with status := newStatus }
  else .error [⟨"status", "Status must be either new, read, replied, or archived"⟩]

/-! Concrete inputs used by the claim theorems and witnesses -/

/-- A Contact document as it stands before the admin updates its status. -/
def repliedRequestBefore : ContactDoc :=
  { name := "Ada Lovelace", email := "ada@example.com",
    subject := "Hello there", message := "Just a friendly hello", status := "new" }

def classifyDemoInput : ContactDoc :=
  { name := "Ada Lovelace", email := "ada@example.com", subject := "Website help",
    message := "Please fix my website quickly please", status := "new", priority := "low" }

def classifyDemoSaved : ContactDoc :=
  { name := "Ada Lovelace", email := "ada@example.com", subject := "Website help",
    message := "Please fix my website quickly please", status := "new",
    priority := "normal", tags := ["website"] }

/-- A body in which both the name (too short) and the subject (too short)
violate the length invariants while every field is present and the email is
well-formed. -/
def multiViolationBody : ContactBody :=
  { name := "A", email := "ada@example.com", subject := "Hi!",
    message := "This message is long enough." }

/-- The verdict of the external validator.isEmail on the only address the
concrete runs consult (the library accepts it). -/
def demoIsEmail : String → Bool := fun e => e == "ada@example.com"

/-- A stored Contact that a search term reaches only through its tags. -/
def tagOnlyContact : ContactDoc :=
  { name := "Bob Stone", email := "bob@example.com", subject := "hello there",
    message := "plain text body", tags := ["urgent"] }

def tagSearchQuery : ListingQuery := { search := some "urgent" }

/-- The submission body of the spec's Ada Lovelace scenario. -/
def adaBody : ContactBody :=
  { name := "Ada Lovelace", email := "ada@example.com",
    subject := "Collaboration opportunity",
    message := "I\x27d like to discuss a freelance project, it\x27s urgent." }

/-- The Contact the pipeline persists for the Ada Lovelace scenario (the
middleware HTML-escapes the apostrophes of the message). -/
def adaSaved : ContactDoc :=
  { name := "Ada Lovelace", email := "ada@example.com",
    subject := "Collaboration opportunity",
    message := "I&#x27;d like to discuss a freelance project, it&#x27;s urgent.",
    status := "new", priority := "urgent", tags := ["urgent", "freelance"] }

/-- A submission whose name holds an apostrophe and whose other fields are
all valid. -/
def apostropheBody : ContactBody :=
  { name := "O\x27Brien", email := "obrien@example.com",
    subject := "Hello from Ireland", message := "Just wanted to say hello to you." }

/-- The verdict of validator.isEmail on the address of apostropheBody. -/
def obrienIsEmail : String → Bool := fun e => e == "obrien@example.com"

/-- A store of schema-valid Contacts used as the statistics witness. -/
def demoStore : List ContactDoc :=
  [{ name := "Ada Lovelace", email := "ada@example.com", subject := "Hello there",
     message := "Just saying hello today", status := "new" },
   { name := "Grace Hopper", email := "grace@example.com", subject := "Compiler talk",
     message := "Shall we discuss compilers", status := "replied" }]

/-! Helper lemmas -/

/-- The catch inside sendEmailNotifications swallows every failure. -/
lemma sendEmailNotificationsModel_ok (env : NotifyEnv) :
    sendEmailNotificationsModel env = .ok () := by
  unfold sendEmailNotificationsModel
  cases notificationsInner env <;> rfl

/-- A truthiness-guarded boolean clause. -/
lemma guard_or_iff (g x : Bool) : ((!g) || x) = true ↔ (g = true → x = true) := by
  cases g <;> simp

/-- A falsity disjunct read as an implication. -/
lemma eq_false_or_iff (b : Bool) (X : Prop) : b = false ∨ X ↔ (b = true → X) := by
  cases b <;> simp

/-- The find filter of getContacts, characterised clause by clause. -/
lemma matchesContactFilter_iff (q : ListingQuery) (c : ContactDoc) :
    matchesContactFilter q c = true ↔
      (∀ s, q.status = some s → jsTruthy s = true → c.status = s) ∧
      (∀ p, q.priority = some p → jsTruthy p = true → c.priority = p) ∧
      (∀ t, q.search = some t → jsTruthy t = true →
        (regexI c.name t = true ∨ regexI c.email t = true ∨
         regexI c.subject t = true ∨ regexI c.message t = true)) := by
  unfold matchesContactFilter
  cases hst : q.status <;> cases hpr : q.priority <;> cases hse : q.search <;>
    simp [Bool.and_eq_true, Bool.or_eq_true, beq_iff_eq, eq_false_or_iff, or_assoc,
      and_assoc]

/-! Claim theorems -/

/-- C1: whenever the lower-cased space-joined subject and message contain an
urgent keyword, determinePriority answers urgent, regardless of any high
keyword also present: the urgent scan runs first. -/
theorem urgent_keyword_takes_precedence (subject message : String)
    (h : ∃ kw ∈ urgentKeywords,
      strIncludes (classifierContent subject message) kw = true) :
    determinePriority subject message = "urgent" := by
  obtain ⟨kw, hmem, hinc⟩ := h
  have hany : urgentKeywords.any
      (fun k => strIncludes (classifierContent subject message) k) = true :=
    List.any_eq_true.2 ⟨kw, hmem, hinc⟩
  simp [determinePriority, hany]

/-- Witness for C1: the content holds the urgent keyword asap together with
the high keywords important and deadline, and the priority is urgent. -/
theorem urgent_keyword_takes_precedence_witness :
    (∃ kw ∈ urgentKeywords,
      strIncludes (classifierContent "Important deadline" "Need this done asap please") kw = true) ∧
    determinePriority "Important deadline" "Need this done asap please" = "urgent" :=
  ⟨by decide, urgent_keyword_takes_precedence _ _ (by decide)⟩

/-- C2: the status-update operation reaches the store through
findByIdAndUpdate, which does not run the pre-save hooks, so updating a
fresh Contact's status to replied leaves response.repliedAt unset — against
the claim (and against the schema's own replied hook). -/
theorem updateStatus_replied_leaves_repliedAt_unset :
    updateContactStatusOp "replied" repliedRequestBefore =
      .ok { repliedRequestBefore with status := "replied" } ∧
    ({ repliedRequestBefore with status := "replied" } : ContactDoc).repliedAt = none :=
  ⟨rfl, rfl⟩

/-- C3: every successfully saved Contact carries exactly the tags and the
priority the classifier computes from its own subject and message, and the
priority the caller supplied to the document is irrelevant to the save
result. -/
theorem saved_classification_authoritative (sm : Bool) (now : Nat)
    (c c2 : ContactDoc) (p1 p2 : String)
    (h : saveContact sm now c = .ok c2)
    (h1 : priorityValid p1 = true) (h2 : priorityValid p2 = true) :
    c2.tags = extractTags c2.subject c2.message ∧
    c2.priority = determinePriority c2.subject c2.message ∧
    saveContact sm now { c with priority := p1 } =
      saveContact sm now { c with priority := p2 } := by
  have hc2 : c2 = preSaveHooks sm now c := by
    unfold saveContact at h
    cases hv : validateContactSchema c with
    | nil =>
        rw [hv] at h
        exact (Except.ok.inj h).symm
    | cons e es =>
        rw [hv] at h
        simp at h
  subst hc2
  refine ⟨?_, ?_, ?_⟩
  · unfold preSaveHooks preSaveReplied
    split <;> rfl
  · unfold preSaveHooks preSaveReplied
    split <;> rfl
  · unfold saveContact
    have hv : validateContactSchema { c with priority := p1 } =
        validateContactSchema { c with priority := p2 } := by
      simp [validateContactSchema, pathError, h1, h2]
    rw [hv]
    cases validateContactSchema { c with priority := p2 } <;> rfl

/-- Witness for C3: a concrete save whose caller-side priority low is
replaced by the classifier verdict normal, with the website tag attached. -/
theorem saved_classification_authoritative_witness :
    (saveContact true 0 classifyDemoInput = .ok classifyDemoSaved ∧
     priorityValid "low" = true ∧ priorityValid "urgent" = true) ∧
    (classifyDemoSaved.tags = extractTags classifyDemoSaved.subject classifyDemoSaved.message ∧
     classifyDemoSaved.priority =
       determinePriority classifyDemoSaved.subject classifyDemoSaved.message ∧
     saveContact true 0 { classifyDemoInput with priority := "low" } =
       saveContact true 0 { classifyDemoInput with priority := "urgent" }) :=
  ⟨⟨rfl, rfl, rfl⟩,
   saved_classification_authoritative true 0 classifyDemoInput classifyDemoSaved
     "low" "urgent" rfl rfl rfl⟩

/-- C4 counterexample: with the name and the subject both violating the
length invariants, the middleware rejects with the single name message; the
failure does not enumerate the subject violation. -/
theorem validation_reports_first_error_only :
    violatedFields demoIsEmail multiViolationBody = ["name", "subject"] ∧
    validateContactMw demoIsEmail multiViolationBody =
      .error "Name must be between 2 and 50 characters" ∧
    strIncludes "Name must be between 2 and 50 characters" "subject" = false :=
  ⟨rfl, rfl, rfl⟩

/-- C4 amended: for every input, the middleware rejects with a message e
exactly when e is the message of the first failing check in the fixed order
(required fields, email format, name length, subject length, message
length); so a multi-violation input is reported through the first failing
check only, and the messages of the later violated checks never appear in
the failure. -/
theorem validation_first_failed_check_only (isEmailV : String → Bool)
    (b : ContactBody) (e : String) :
    validateContactMw isEmailV b = .error e ↔
      (failedCheckMessages isEmailV b).head? = some e := by
  cases hn : jsTruthy b.name <;> cases he : jsTruthy b.email <;>
    cases hs : jsTruthy b.subject <;> cases hm : jsTruthy b.message <;>
    cases hev : isEmailV b.email <;> cases hln : isLength b.name 2 50 <;>
    cases hls : isLength b.subject 5 100 <;> cases hlm : isLength b.message 10 1000 <;>
    simp [validateContactMw, failedCheckMessages, middlewareChecks,
      hn, he, hs, hm, hev, hln, hls, hlm, eq_comm]

/-- C5: after a successful save the 201 response is one and the same whatever
the two send outcomes and the service configuration are, no notification
failure is ever surfaced to the caller, and with the service unconfigured no
send is attempted. -/
theorem notification_failures_isolated (env env2 : NotifyEnv) (c : ContactDoc)
    (cid : String) (u a : Bool) :
    (afterSaveFlow env c cid).response = (afterSaveFlow env2 c cid).response ∧
    (afterSaveFlow env c cid).notificationError = none ∧
    (afterSaveFlow ⟨false, u, a⟩ c cid).notificationsAttempted = 0 := by
  refine ⟨rfl, ?_, rfl⟩
  unfold afterSaveFlow
  rw [sendEmailNotificationsModel_ok]
  cases env.configured <;> rfl

/-- C6 counterexample: a Contact reachable only through its urgent tag
matches the spec's search contract but is absent from the code's listing
result (the find filter searches name, email, subject and message only). -/
theorem listing_misses_tag_search_cex :
    matchesListingSpec tagSearchQuery tagOnlyContact = true ∧
    getContactsItems tagSearchQuery [tagOnlyContact] = [] :=
  ⟨rfl, rfl⟩

/-- C6 amended: the listing result set is exactly the Contacts matching the
status and priority filters (exact match when present and truthy) and, for a
truthy search term, those whose name, email, subject or message contains it
case-insensitively; the source parameter of the request is ignored and tags
are not searched. -/
theorem listing_filter_characterization (q : ListingQuery) (store : List ContactDoc)
    (c : ContactDoc) :
    (c ∈ getContactsItems q store ↔
      c ∈ store ∧
      ((∀ s, q.status = some s → jsTruthy s = true → c.status = s) ∧
       (∀ p, q.priority = some p → jsTruthy p = true → c.priority = p) ∧
       (∀ t, q.search = some t → jsTruthy t = true →
         (regexI c.name t = true ∨ regexI c.email t = true ∨
          regexI c.subject t = true ∨ regexI c.message t = true)))) ∧
    ∀ src, getContactsItems { q with source := src } store = getContactsItems q store := by
  constructor
  · rw [getContactsItems, List.mem_filter, matchesContactFilter_iff]
  · intro src
    have hfun : matchesContactFilter { q with source := src } = matchesContactFilter q := by
      funext x
      rfl
    rw [getContactsItems, getContactsItems, hfun]

/-- C7: with a positive page size the reported pages equal the rational
ceiling of total over the page size, hasNext holds exactly when the 1-indexed
page is below the page count, and hasPrev exactly when the page exceeds 1. -/
theorem pagination_law (total p page : Nat) (hp : 1 ≤ p) :
    (getContactsPagination total page p).pages = ⌈(total : ℚ) / (p : ℚ)⌉₊ ∧
    ((getContactsPagination total page p).hasNext = true ↔
      page < (getContactsPagination total page p).pages) ∧
    ((getContactsPagination total page p).hasPrev = true ↔ 1 < page) := by
  have hp0 : 0 < p := hp
  have hq : (0 : ℚ) < (p : ℚ) := by exact_mod_cast hp0
  refine ⟨?_, by simp [getContactsPagination], by simp [getContactsPagination]⟩
  show (total + p - 1) / p = ⌈(total : ℚ) / (p : ℚ)⌉₊
  rw [← Nat.ceilDiv_eq_add_pred_div total p]
  apply le_antisymm
  · have h3 : (total : ℚ) ≤ (⌈(total : ℚ) / (p : ℚ)⌉₊ : ℚ) * p :=
      (div_le_iff₀ hq).mp (Nat.le_ceil _)
    have h4 : total ≤ p * ⌈(total : ℚ) / (p : ℚ)⌉₊ := by
      rw [mul_comm]
      exact_mod_cast h3
    exact (ceilDiv_le_iff_le_smul hp0).mpr (by simpa [smul_eq_mul] using h4)
  · have h1 : total ≤ p * (total ⌈/⌉ p) := by
      simpa [smul_eq_mul] using le_smul_ceilDiv (α := ℕ) (β := ℕ) hp0 (b := total)
    have h2 : (total : ℚ) / p ≤ ((total ⌈/⌉ p : ℕ) : ℚ) := by
      rw [div_le_iff₀ hq]
      rw [mul_comm] at h1
      exact_mod_cast h1
    exact Nat.ceil_le.mpr h2

/-- Witness for C7 at five items, page size two, page two. -/
theorem pagination_law_witness :
    1 ≤ 2 ∧
    ((getContactsPagination 5 2 2).pages = ⌈(5 : ℚ) / (2 : ℚ)⌉₊ ∧
     ((getContactsPagination 5 2 2).hasNext = true ↔
       2 < (getContactsPagination 5 2 2).pages) ∧
     ((getContactsPagination 5 2 2).hasPrev = true ↔ 1 < 2)) :=
  ⟨by norm_num, pagination_law 5 2 2 (by norm_num)⟩

/-- C8 counterexample: the Ada Lovelace scenario persists, but its tag list
is exactly urgent and freelance — the collaboration tag is absent, because
none of that tag's keywords (collaborate, partner, team up, work together)
occurs in the text. -/
theorem ada_scenario_missing_collaboration_tag :
    endToEndSubmit demoIsEmail adaBody 0 = .ok adaSaved ∧
    adaSaved.tags.contains "collaboration" = false :=
  ⟨rfl, rfl⟩

/-- C8 amended: the scenario yields a persisted Contact whose tags include
urgent and freelance (but not collaboration), with priority urgent and
status new. -/
theorem ada_scenario_tags_priority_status :
    endToEndSubmit demoIsEmail adaBody 0 = .ok adaSaved ∧
    adaSaved.tags.contains "freelance" = true ∧
    adaSaved.tags.contains "urgent" = true ∧
    adaSaved.priority = "urgent" ∧
    adaSaved.status = "new" :=
  ⟨rfl, rfl, rfl, rfl, rfl⟩

/-- C9: a name holding an apostrophe satisfies every §3 invariant and the
schema's own name character class, yet the submission is rejected end to
end: the middleware escapes the apostrophe to an HTML entity whose
characters the schema regex forbids. -/
theorem apostrophe_name_rejected_end_to_end :
    violatedFields obrienIsEmail apostropheBody = [] ∧
    nameRegexTest apostropheBody.name = true ∧
    endToEndSubmit obrienIsEmail apostropheBody 0 =
      .error (.schemaValidation
        [⟨"name", "Name can only contain letters, spaces, hyphens, and apostrophes"⟩]) :=
  ⟨rfl, rfl, rfl⟩

/-- C10: over any store of schema-valid Contacts the statistics overview
reports a responded count of zero and a response rate of zero, because the
status enum never admits the value responded that getContactStats counts. -/
theorem responded_count_always_zero (store : List ContactDoc)
    (h : ∀ c ∈ store, statusValid c.status = true) :
    (getContactStatsOverview store).responded = 0 ∧
    (getContactStatsOverview store).responseRate = 0 := by
  have hz : countDocuments store (fun c => c.status == "responded") = 0 := by
    unfold countDocuments
    rw [List.length_eq_zero, List.filter_eq_nil_iff]
    intro c hc
    have hcv := h c hc
    simp only [beq_iff_eq]
    intro hcs
    rw [hcs] at hcv
    exact absurd hcv (by decide)
  constructor
  · exact hz
  · show (if 0 < store.length then
        ((countDocuments store (fun c => c.status == "responded") : ℚ) /
          (store.length : ℚ)) * 100 else 0) = 0
    rw [hz]
    split <;> simp

/-- Witness for C10 over a concrete two-element store. -/
theorem responded_count_always_zero_witness :
    (∀ c ∈ demoStore, statusValid c.status = true) ∧
    ((getContactStatsOverview demoStore).responded = 0 ∧
     (getContactStatsOverview demoStore).responseRate = 0) :=
  ⟨by decide, responded_count_always_zero demoStore (by decide)⟩

end Portfolio
